import Mathlib

/-!
Verification development for the BrainstormAI session orchestrator
(`src/services/orchestrator.py`, `src/services/agent_reply.py`,
`src/services/agent_decision.py`, `src/utils/common.py`).

Strings are modelled as `List Char`; wall-clock times as `Rat`
(Python floats used only through ordered arithmetic here); the asyncio
control flow of each stage is modelled by explicit scripts describing the
observable behaviour of the external generation collaborator (tokens
delivered, terminal outcome of each attempt, cancellation points).
-/

namespace Brainstorm

abbrev Str := List Char

/-- Python `str` whitespace for `strip`/`lstrip` (ASCII subset; inputs here
are ASCII plus CJK punctuation, never exotic unicode spaces). -/
def pyIsSpace (c : Char) : Bool :=
  c == ' ' || c == '\t' || c == '\n' || c == '\r' ||
  c == Char.ofNat 11 || c == Char.ofNat 12

/-- Python `str.lstrip()`. -/
def pyLstrip (s : Str) : Str := s.dropWhile pyIsSpace

/-- Python `str.rstrip()`. -/
def pyRstrip (s : Str) : Str := (s.reverse.dropWhile pyIsSpace).reverse

/-- Python `str.strip()`. -/
def pyStrip (s : Str) : Str := pyRstrip (pyLstrip s)

/-- Python `str.lower()` (ASCII; the key-point and error strings compared in
the orchestrator are matched byte-wise there as well). -/
def toLowerStr (s : Str) : Str := s.map Char.toLower

/-- Python `needle in hay` substring test. -/
def strContains (hay needle : Str) : Bool :=
  match hay with
  | [] => needle.isEmpty
  | _ :: t => needle.isPrefixOf hay || strContains t needle

/-- From `src/utils/common.py`, `is_transient_timeout_error`: classify an
exception by substrings of its lowercased message. -/
def is_transient_timeout_error (msg : Str) : Bool :=
  let text := toLowerStr msg
  strContains text "timeout".toList ||
  strContains text "deadline exceeded".toList ||
  strContains text "awaiting headers".toList

/-- From `src/services/agent_reply.py`, `_consume_leading_duplicate_mention`.
Returns `(resolved, token_to_emit)`. Note the match target is
`"@" ++ target_name` with no trailing space. -/
def consume_leading_duplicate_mention (buffered_text target_name : Str) :
    Bool × Str :=
  let trimmed := pyLstrip buffered_text
  if trimmed.isEmpty then (false, [])
  else
    let expected := '@' :: target_name
    if trimmed.isPrefixOf expected && decide (trimmed.length < expected.length) then
      -- still potentially a split mention token, wait for more content
      (false, [])
    else if expected.isPrefixOf trimmed then
      let remainder := pyLstrip (trimmed.drop expected.length)
      let remainder2 :=
        match remainder with
        | c :: rest =>
            if c == ',' || c == '，' || c == ':' || c == '：' then pyLstrip rest
            else remainder
        | [] => remainder
      (true, remainder2)
    else
      (true, buffered_text)

/-- State of the mention-dedup guard inside `generate_agent_reply`
(`mention_guard_resolved`, `mention_guard_buffer`). -/
structure MentionGuard where
  resolved : Bool
  buffer : Str
deriving Repr, DecidableEq

example : consume_leading_duplicate_mention "@B".toList "Bob".toList = (false, []) := by decide

example :
    consume_leading_duplicate_mention "@Bob ".toList "Bob".toList = (true, []) := by decide

example :
    consume_leading_duplicate_mention "Hi ".toList "Bob".toList = (true, "Hi ".toList) := by
  decide

example :
    consume_leading_duplicate_mention "@Bob,hello".toList "Bob".toList =
      (true, "hello".toList) := by decide

/-! ## Domain data (src/domain/schemas.py, orchestrator dataclasses) -/

/-- The `AgentAction` enum from `src/domain/schemas.py`. -/
inductive AgentAction
  | silent
  | reply_user
  | reply_ai
  | comment
deriving Repr, DecidableEq

/-- The `AgentDecision` model from `src/domain/schemas.py` (the fields the
orchestrator core reads; `reason`/`stance`/`confidence` are only logged). -/
structure AgentDecision where
  action : AgentAction
  target_message_id : Option Str := none
  target_author_name : Option Str := none
  key_points : Option Str := none
deriving Repr, DecidableEq

/-- The `ChatMessage` dataclass from `src/services/orchestrator.py`. -/
structure ChatMessage where
  id : Str
  author_type : Str
  author_id : Option Str
  author_name : Str
  content : Str
  target_message_id : Option Str := none
  target_author_name : Option Str := none
deriving Repr, DecidableEq

/-- Per-agent mutable runtime fields of `AgentState`
(`src/services/orchestrator.py`). -/
structure AgentState where
  last_spoke_at : Rat := 0
  last_seen_message_version : Nat := 0
deriving Repr, DecidableEq

/-- The `SessionConfig` model from `src/config/settings.py` (fields the orchestrator
core reads). -/
structure SessionConfig where
  agent_cooldown_seconds : Rat
  global_speak_interval_seconds : Rat
  silence_end_seconds : Rat
  max_total_ai_messages : Int
  pause_timeout_seconds : Rat
deriving Repr, DecidableEq

/-- The orchestrator-owned mutable state of `SessionOrchestrator`
(`src/services/orchestrator.py`).  Task sets are abstracted to the counts
the lifecycle monitor reads (`_generation_tasks` non-emptiness,
`_pending_decisions`). -/
structure OrchState where
  messages : List ChatMessage
  message_version : Nat
  ended : Bool
  last_activity_at : Rat
  last_global_speak_at : Rat
  total_ai_messages : Nat
  recent_key_points : List Str
  generation_paused : Bool
  paused_since : Option Rat
  pending_decisions : Nat
  generation_count : Nat
deriving Repr, DecidableEq

/-- A fresh orchestrator state (dataclass defaults). -/
def initOrchState : OrchState :=
  { messages := []
    message_version := 0
    ended := false
    last_activity_at := 0
    last_global_speak_at := 0
    total_ai_messages := 0
    recent_key_points := []
    generation_paused := false
    paused_since := none
    pending_decisions := 0
    generation_count := 0 }

/-- Model of `SessionOrchestrator.add_message`: append and bump the version. -/
def add_message (st : OrchState) (m : ChatMessage) : OrchState :=
  { st with messages := st.messages ++ [m],
            message_version := st.message_version + 1 }

/-! ## Reply stage (src/services/agent_reply.py, generate_agent_reply)

The observable behaviour of one `agent.astream(...)` call is a list of
non-empty text tokens followed by a terminal outcome: normal end of
stream, an exception with a message, or delivery of `CancelledError` at
some await point inside the loop (which includes the retry sleep). -/

/-- Terminal outcome of one streaming attempt. -/
inductive StreamOutcome
  | ok
  | err (msg : Str)
  | cancelled
deriving Repr, DecidableEq

/-- One `agent.astream` attempt: the text tokens delivered before the
terminal outcome, then the outcome. -/
structure AttemptStream where
  tokens : List Str
  outcome : StreamOutcome
deriving Repr, DecidableEq

/-- Events the reply stage hands to the output sink (`emit`), with the
payload fields the claims are about.  `completedEv` is emitted by the
caller `SessionOrchestrator._generate_reply` after the append. -/
inductive REvent
  | started
  | delta (token : Str)
  | cancelledEv (content : Str)
  | errorEv (msg : Str)
  | completedEv (content : Str)
deriving Repr, DecidableEq

/-- Accumulator for one run of `generate_agent_reply`: the mention guard,
`full_content`, the events emitted so far, and whether
`mark_output_started` has been called. -/
structure ReplyAcc where
  guard : MentionGuard
  content : Str
  events : List REvent
  outputStarted : Bool
deriving Repr, DecidableEq

/-- The per-token body of the `async for` loop in `generate_agent_reply`
(empty tokens are skipped by `if token:`). -/
def replyTok (mention_target_name : Str) (acc : ReplyAcc) (token : Str) :
    ReplyAcc :=
  if token.isEmpty then acc
  else if acc.guard.resolved then
    { acc with content := acc.content ++ token,
               events := acc.events ++ [REvent.delta token],
               outputStarted := true }
  else
    let buf := acc.guard.buffer ++ token
    let r := consume_leading_duplicate_mention buf mention_target_name
    if r.1 then
      -- resolved: mark_output_started runs even when the remainder is empty
      if r.2.isEmpty then
        { acc with guard := ⟨true, buf⟩, outputStarted := true }
      else
        { guard := ⟨true, buf⟩,
          content := acc.content ++ r.2,
          events := acc.events ++ [REvent.delta r.2],
          outputStarted := true }
    else
      { acc with guard := ⟨false, buf⟩ }

/-- The flush after the `async for` loop ends normally: an unresolved
non-empty guard buffer is forwarded unchanged. -/
def replyFlush (acc : ReplyAcc) : ReplyAcc :=
  if !acc.guard.resolved && !acc.guard.buffer.isEmpty then
    { guard := ⟨true, acc.guard.buffer⟩,
      content := acc.content ++ acc.guard.buffer,
      events := acc.events ++ [REvent.delta acc.guard.buffer],
      outputStarted := true }
  else acc

/-- Run one streaming attempt: fold the loop body over the delivered
tokens; flush only when the stream ended normally (an exception or
cancellation skips the flush). -/
def runAttempt (mention_target_name : Str) (acc : ReplyAcc)
    (a : AttemptStream) : ReplyAcc × StreamOutcome :=
  let acc1 := a.tokens.foldl (replyTok mention_target_name) acc
  match a.outcome with
  | StreamOutcome.ok => (replyFlush acc1, StreamOutcome.ok)
  | o => (acc1, o)

/-- How one call of `generate_agent_reply` ends: a normal return (after a
completed stream, or after a swallowed non-cancellation failure whose
`error` event was emitted), or `CancelledError` propagating. -/
inductive ReplyOutcome
  | completed
  | errored (msg : Str)
  | cancelledRun
deriving Repr, DecidableEq

/-- Observable result of one `generate_agent_reply` call. -/
structure ReplyRun where
  events : List REvent
  content : Str
  outcome : ReplyOutcome
  attemptsUsed : Nat
deriving Repr, DecidableEq

/-- A script for one `generate_agent_reply` call.  `preTryCancel` models
`CancelledError` delivered at an await point before the `try` block that
owns the cancellation handler (the `message_started` emit or the mention
delta emit at lines 115-144); `attempts` gives the behaviour of the at
most two streaming attempts. -/
inductive ReplyScript
  | preTryCancel
  | attempts (a0 a1 : AttemptStream)
deriving Repr, DecidableEq

/-- The canonical self-emitted mention target: non-empty exactly when the
decision is `reply_ai` with a truthy (non-empty) target author name. -/
def mentionTargetOf (action : AgentAction) (target_author_name : Option Str) :
    Str :=
  if action = AgentAction.reply_ai then target_author_name.getD [] else []

/-- State of `generate_agent_reply` when the attempt loop is entered:
`message_started` emitted; for a mention target, `full_content` primed
with the canonical `"@<target> "`, that prefix emitted as a delta and
output marked started; the guard starts resolved iff there is no mention
target. -/
def replyAcc0 (mt : Str) : ReplyAcc :=
  if mt.isEmpty then ⟨⟨true, []⟩, [], [REvent.started], false⟩
  else
    ⟨⟨false, []⟩, '@' :: (mt ++ [' ']),
      [REvent.started, REvent.delta ('@' :: (mt ++ [' ']))], true⟩

/-- The final attempt (0-based attempt 1) of `generate_agent_reply`: the
exception handlers after the loop turn cancellation into a
`message_cancelled` event plus a re-raise, and any other exception into an
`error` event plus a normal return. -/
def garStage1 (acc : ReplyAcc) (o : StreamOutcome) : ReplyRun :=
  match o with
  | StreamOutcome.ok => ⟨acc.events, acc.content, ReplyOutcome.completed, 2⟩
  | StreamOutcome.cancelled =>
      ⟨acc.events ++ [REvent.cancelledEv acc.content], acc.content,
        ReplyOutcome.cancelledRun, 2⟩
  | StreamOutcome.err m2 =>
      ⟨acc.events ++ [REvent.errorEv m2], acc.content,
        ReplyOutcome.errored m2, 2⟩

/-- Attempt 0 of `generate_agent_reply`: a timeout-classified exception
with no non-whitespace output yet is retried once (after a 1.0 s sleep);
any other exception falls to the handlers as in `garStage1`. -/
def garStage0 (mt : Str) (acc : ReplyAcc) (o : StreamOutcome)
    (a1 : AttemptStream) : ReplyRun :=
  match o with
  | StreamOutcome.ok => ⟨acc.events, acc.content, ReplyOutcome.completed, 1⟩
  | StreamOutcome.cancelled =>
      ⟨acc.events ++ [REvent.cancelledEv acc.content], acc.content,
        ReplyOutcome.cancelledRun, 1⟩
  | StreamOutcome.err m =>
      if is_transient_timeout_error m && (pyStrip acc.content).isEmpty then
        garStage1 (runAttempt mt acc a1).1 (runAttempt mt acc a1).2
      else
        ⟨acc.events ++ [REvent.errorEv m], acc.content,
          ReplyOutcome.errored m, 1⟩

/-- Model of `generate_agent_reply` (src/services/agent_reply.py lines 76-235),
over a behaviour script of the external streaming collaborator. -/
def generate_agent_reply (action : AgentAction)
    (target_author_name : Option Str) (script : ReplyScript) : ReplyRun :=
  let mt := mentionTargetOf action target_author_name
  match script with
  | ReplyScript.preTryCancel =>
      -- cancellation before the try block: no message_cancelled event
      ⟨[REvent.started], [], ReplyOutcome.cancelledRun, 0⟩
  | ReplyScript.attempts a0 a1 =>
      garStage0 mt (runAttempt mt (replyAcc0 mt) a0).1
        (runAttempt mt (replyAcc0 mt) a0).2 a1

/-- Model of `SessionOrchestrator._generate_reply` after the awaited
`generate_agent_reply` call (lines 342-382): on a normal return it appends
the message, touches activity/cooldown bookkeeping and emits
`message_completed`; a propagating `CancelledError` (third component
`true`) reaches the worker's handler and mutates nothing. -/
def generate_reply_caller (st : OrchState) (ag : AgentState)
    (info_id : Str) (nickname : Str) (decision : AgentDecision)
    (run : ReplyRun) (msg_id : Str) (now : Rat) :
    OrchState × AgentState × Bool × List REvent :=
  match run.outcome with
  | ReplyOutcome.cancelledRun => (st, ag, true, run.events)
  | _ =>
      let msg : ChatMessage :=
        { id := msg_id
          author_type := "ai".toList
          author_id := some info_id
          author_name := nickname
          content := run.content
          target_message_id := decision.target_message_id
          target_author_name := decision.target_author_name }
      let st1 := add_message st msg
      let st2 := { st1 with last_activity_at := now,
                            total_ai_messages := st1.total_ai_messages + 1 }
      (st2, { ag with last_spoke_at := now }, false,
        run.events ++ [REvent.completedEv run.content])

/-! ## Decision stage (src/services/agent_decision.py, decide_agent_action) -/

/-- Observable behaviour of one `agent.ainvoke` attempt: a returned result
whose `structured_response` is or is not a valid `AgentDecision`, an
exception with a message, or `CancelledError`. -/
inductive DecideOutcome
  | ok (valid : Bool)
  | err (msg : Str)
  | cancelled
deriving Repr, DecidableEq

/-- How `decide_agent_action` ends: with the structured decision, with the
default silent decision, or with `CancelledError` propagating. -/
inductive DecideResult
  | decided
  | silent
  | raisedCancelled
deriving Repr, DecidableEq

/-- Observable result of one `decide_agent_action` call: the result, the
backoff sleeps performed (in order), and how many attempts ran. -/
structure DecideRun where
  result : DecideResult
  delays : List Rat
  attemptsUsed : Nat
deriving Repr, DecidableEq

/-- The message of the `ValueError` raised when `structured_response` is
missing or of the wrong type. -/
def valueErrorMsg : Str := "Missing structured_response for AgentDecision".toList

/-- One iteration of the attempt loop in `decide_agent_action` at 0-based
index `attempt` (`max_attempts = 3`): either the loop terminates with a
result, or it retries after the returned backoff delay `0.8 * (attempt+1)`
seconds. -/
def decide_step (attempt : Nat) (o : DecideOutcome) : DecideResult ⊕ Rat :=
  match o with
  | DecideOutcome.ok true => Sum.inl DecideResult.decided
  | DecideOutcome.ok false =>
      -- ValueError("Missing structured_response ...") lands in the same
      -- except-clause and is classified like any other exception
      if is_transient_timeout_error valueErrorMsg && decide (attempt < 2) then
        Sum.inr ((4 : Rat) / 5 * (attempt + 1))
      else Sum.inl DecideResult.silent
  | DecideOutcome.err m =>
      if is_transient_timeout_error m && decide (attempt < 2) then
        Sum.inr ((4 : Rat) / 5 * (attempt + 1))
      else Sum.inl DecideResult.silent
  | DecideOutcome.cancelled => Sum.inl DecideResult.raisedCancelled

/-- Model of `decide_agent_action` (src/services/agent_decision.py lines 40-112)
over the behaviour of its at most three `ainvoke` attempts. -/
def decide_agent_action (o0 o1 o2 : DecideOutcome) : DecideRun :=
  match decide_step 0 o0 with
  | Sum.inl r => ⟨r, [], 1⟩
  | Sum.inr d0 =>
      match decide_step 1 o1 with
      | Sum.inl r => ⟨r, [d0], 2⟩
      | Sum.inr d1 =>
          match decide_step 2 o2 with
          | Sum.inl r => ⟨r, [d0, d1], 3⟩
          | Sum.inr _ => ⟨DecideResult.silent, [d0, d1], 3⟩

/-- Whether an attempt outcome sends the loop into the retry branch
(timeout-classified failure; position permitting). -/
def retriableOutcome (o : DecideOutcome) : Bool :=
  match o with
  | DecideOutcome.ok true => false
  | DecideOutcome.ok false => is_transient_timeout_error valueErrorMsg
  | DecideOutcome.err m => is_transient_timeout_error m
  | DecideOutcome.cancelled => false

/-! ## Pacing policy (src/services/orchestrator.py, _approve_speech) -/

/-- Model of `collections.deque(maxlen := cap)` append: push at the back, evict
from the front beyond capacity. -/
def pushBounded (cap : Nat) (l : List Str) (x : Str) : List Str :=
  let l2 := l ++ [x]
  if l2.length ≤ cap then l2 else l2.drop (l2.length - cap)

/-- The decision's key-point string as `_approve_speech` normalizes it:
`(decision.key_points or "").strip().lower()`. -/
def normalizeKeyPoints (kp : Option Str) : Str :=
  toLowerStr (pyStrip (kp.getD []))

/-- Model of `SessionOrchestrator._approve_speech` (lines 267-286): returns the
verdict and the (possibly) updated orchestrator state. -/
def approve_speech (cfg : SessionConfig) (st : OrchState) (ag : AgentState)
    (decision : AgentDecision) (now : Rat) : Bool × OrchState :=
  if now - ag.last_spoke_at < cfg.agent_cooldown_seconds then (false, st)
  else if cfg.global_speak_interval_seconds > 0 ∧
      now - st.last_global_speak_at < cfg.global_speak_interval_seconds then
    (false, st)
  else if cfg.max_total_ai_messages > 0 ∧
      (st.total_ai_messages : Int) ≥ cfg.max_total_ai_messages then
    (false, st)
  else
    let kp := normalizeKeyPoints decision.key_points
    if ¬kp.isEmpty ∧ kp ∈ st.recent_key_points then (false, st)
    else
      (true,
        { st with
            last_global_speak_at := now,
            recent_key_points :=
              if kp.isEmpty then st.recent_key_points
              else pushBounded 8 st.recent_key_points kp })

/-- The pacing operation as claim C4 words it (spec §4.2): the duplicate
check and the push apply to the normalized key-point string
unconditionally, with no non-emptiness guard. -/
def approve_speech_claimC4 (cfg : SessionConfig) (st : OrchState)
    (ag : AgentState) (decision : AgentDecision) (now : Rat) :
    Bool × OrchState :=
  let kp := normalizeKeyPoints decision.key_points
  if now - ag.last_spoke_at < cfg.agent_cooldown_seconds ∨
      (cfg.global_speak_interval_seconds > 0 ∧
        now - st.last_global_speak_at < cfg.global_speak_interval_seconds) ∨
      (cfg.max_total_ai_messages > 0 ∧
        (st.total_ai_messages : Int) ≥ cfg.max_total_ai_messages) ∨
      kp ∈ st.recent_key_points then
    (false, st)
  else
    (true,
      { st with
          last_global_speak_at := now,
          recent_key_points := pushBounded 8 st.recent_key_points kp })

/-- The pacing operation as amended: reject exactly on the four
conditions, the duplicate-topic condition applying only to a key-point
string that is non-empty after trimming and lowercasing; on approval
record `now` as the global speak time and push the normalized key-point
string only when it is non-empty, evicting the oldest beyond capacity 8. -/
def approve_speech_amended (cfg : SessionConfig) (st : OrchState)
    (ag : AgentState) (decision : AgentDecision) (now : Rat) :
    Bool × OrchState :=
  let kp := normalizeKeyPoints decision.key_points
  if now - ag.last_spoke_at < cfg.agent_cooldown_seconds ∨
      (cfg.global_speak_interval_seconds > 0 ∧
        now - st.last_global_speak_at < cfg.global_speak_interval_seconds) ∨
      (cfg.max_total_ai_messages > 0 ∧
        (st.total_ai_messages : Int) ≥ cfg.max_total_ai_messages) ∨
      (¬kp.isEmpty ∧ kp ∈ st.recent_key_points) then
    (false, st)
  else
    (true,
      { st with
          last_global_speak_at := now,
          recent_key_points :=
            if kp.isEmpty then st.recent_key_points
            else pushBounded 8 st.recent_key_points kp })

/-! ## Lifecycle monitor (src/services/orchestrator.py, _monitor_lifecycle) -/

/-- Session termination reasons produced by the monitor. -/
inductive EndReason
  | max_total_ai_messages
  | pause_timeout
  | silence_timeout
deriving Repr, DecidableEq

/-- One iteration of `_monitor_lifecycle` (lines 288-307): the reason the
session is shut down on this tick, if any. -/
def monitor_tick (cfg : SessionConfig) (st : OrchState) (now : Rat) :
    Option EndReason :=
  if cfg.max_total_ai_messages > 0 ∧
      (st.total_ai_messages : Int) ≥ cfg.max_total_ai_messages then
    some EndReason.max_total_ai_messages
  else if st.generation_paused then
    match st.paused_since with
    | some p =>
        if cfg.pause_timeout_seconds > 0 ∧ now - p ≥ cfg.pause_timeout_seconds then
          some EndReason.pause_timeout
        else none
    | none => none
  else if now - st.last_activity_at ≥ cfg.silence_end_seconds ∧
      st.generation_count = 0 ∧ st.pending_decisions = 0 then
    some EndReason.silence_timeout
  else none

/-! ## Log / wake-signal trace model (add_message, _wait_for_new_message)

An interleaved execution of appends (from `handle_new_message` or
`_generate_reply`) and one worker's `_wait_for_new_message` calls, seen
from that worker. -/

/-- One observable step touching the log or the worker's observed
version. -/
inductive LogOp
  | append (m : ChatMessage)
  | workerWait
deriving Repr, DecidableEq

/-- Effect of one step.  `_wait_for_new_message` updates
`last_seen_message_version` to the current version exactly when it woke
with `¬ended ∧ version > observed`; a timeout, or waking into an ended
session, changes nothing. -/
def logStep (p : OrchState × AgentState) (op : LogOp) : OrchState × AgentState :=
  match op with
  | LogOp.append m => (add_message p.1 m, p.2)
  | LogOp.workerWait =>
      if ¬p.1.ended ∧ p.1.message_version > p.2.last_seen_message_version then
        (p.1, { p.2 with last_seen_message_version := p.1.message_version })
      else p

/-- Run a trace of steps. -/
def runLog (p : OrchState × AgentState) (tr : List LogOp) : OrchState × AgentState :=
  tr.foldl logStep p

/-- Number of appends in a trace. -/
def countAppends (tr : List LogOp) : Nat :=
  tr.countP (fun op => match op with | LogOp.append _ => true | _ => false)

/-! ## Worker-cycle trace model (one agent's loop body after a decision)

One cycle covers orchestrator lines 235-247 plus the awaited
`_generate_reply`: the pacing check at `decide_time`, and — if approved —
the generation, which either returns normally at some time (success, or a
swallowed error; either way `_generate_reply` appends and sets
`last_spoke_at`), or is cancelled, in which case the worker catches
`CancelledError` and no bookkeeping happens. -/

/-- One approved-or-rejected cycle of a single agent's worker. -/
structure WorkerCycle where
  decide_time : Rat
  decision : AgentDecision
  genReturns : Option Rat
deriving Repr, DecidableEq

/-- Placeholder for the message `_generate_reply` appends (its content is
irrelevant to pacing). -/
def genMessage (nickname : Str) : ChatMessage :=
  { id := [], author_type := "ai".toList, author_id := none,
    author_name := nickname, content := [], target_message_id := none,
    target_author_name := none }

/-- Effect of one worker cycle on the orchestrator state, the agent state
and the list of pacing-approval times recorded so far. -/
def runCycle (cfg : SessionConfig) (p : OrchState × AgentState × List Rat)
    (c : WorkerCycle) : OrchState × AgentState × List Rat :=
  let st := p.1
  let ag := p.2.1
  let approvals := p.2.2
  let r := approve_speech cfg st ag c.decision c.decide_time
  if r.1 then
    match c.genReturns with
    | some t =>
        let st2 := add_message r.2 (genMessage [])
        (({ st2 with last_activity_at := t,
                     total_ai_messages := st2.total_ai_messages + 1 }),
          { ag with last_spoke_at := t }, approvals ++ [c.decide_time])
    | none => (r.2, ag, approvals ++ [c.decide_time])
  else (st, ag, approvals)

/-- Run a list of worker cycles. -/
def runCycles (cfg : SessionConfig) (p : OrchState × AgentState × List Rat)
    (cs : List WorkerCycle) : OrchState × AgentState × List Rat :=
  cs.foldl (runCycle cfg) p

/-! ## Mention-dedup filter in isolation (claim C3)

The filter applied to the model's streamed chunks, extracted from the
streaming loop: the forwarded text is the concatenation of the deltas the
loop emits for those chunks (the canonical self-emitted mention is not
part of it). -/

/-- Forwarded text of the code's mention-dedup filter over a chunk
stream, including the end-of-stream flush.  Runs the exact loop body
`replyTok` from a fresh guard. -/
def runMentionFilter (target : Str) (chunks : List Str) : Str :=
  (replyFlush
    (chunks.foldl (replyTok target) ⟨⟨target.isEmpty, []⟩, [], [], false⟩)).content

/-- The filter as claim C3 words it, with the expected mention string
`"@" ++ target ++ " "` (the claim's `"@Bob "`): keep buffering while the
buffer is a strict prefix of that string — hence at least until the
buffer is longer than it; once the buffer exceeds that length, if it
starts with the mention string strip it plus one trailing punctuation
character and forward the remainder, else forward the buffer unchanged;
flush unchanged if the stream ends unresolved. -/
def mentionFilterClaimC3Step (mention : Str) (p : Bool × Str × Str)
    (token : Str) : Bool × Str × Str :=
  if p.1 then (true, p.2.1, p.2.2 ++ token)
  else
    let buf := p.2.1 ++ token
    if buf.length ≤ mention.length then (false, buf, p.2.2)
    else if mention.isPrefixOf buf then
      let rem := buf.drop mention.length
      let rem2 :=
        match rem with
        | c :: rest =>
            if c == ',' || c == '，' || c == ':' || c == '：' then rest else rem
        | [] => rem
      (true, buf, p.2.2 ++ rem2)
    else (true, buf, p.2.2 ++ buf)

/-- Forwarded text of the claim-C3 filter over a chunk stream. -/
def runMentionFilterClaimC3 (target : Str) (chunks : List Str) : Str :=
  let mention : Str := '@' :: (target ++ [' '])
  let p := chunks.foldl (mentionFilterClaimC3Step mention) (false, [], [])
  if ¬p.1 ∧ ¬p.2.1.isEmpty then p.2.2 ++ p.2.1 else p.2.2

/-- Remainder forwarded when the trimmed buffer starts with the mention:
drop the mention, leading whitespace, one optional punctuation mark among
`, ， : ：`, and the whitespace after it. -/
def stripMentionRemainder (rest : Str) : Str :=
  let r := pyLstrip rest
  match r with
  | c :: more =>
      if c == ',' || c == '，' || c == ':' || c == '：' then pyLstrip more else r
  | [] => r

/-- The filter as amended: the match target is `"@" ++ target` with no
trailing space; after each non-empty chunk the whitespace-trimmed buffer
is examined — while it is empty or a strict proper prefix of the match
target the filter keeps buffering, otherwise it resolves at once: if the
trimmed buffer starts with the match target the mention is stripped
(plus surrounding whitespace and one optional punctuation mark) and the
remainder forwarded, else the buffer is forwarded unchanged. -/
def mentionFilterAmendedStep (target : Str) (p : Bool × Str × Str)
    (token : Str) : Bool × Str × Str :=
  if token.isEmpty then p
  else if p.1 then (true, p.2.1, p.2.2 ++ token)
  else
    let buf := p.2.1 ++ token
    let trimmed := pyLstrip buf
    let mention : Str := '@' :: target
    if trimmed.isEmpty then (false, buf, p.2.2)
    else if trimmed.isPrefixOf mention && decide (trimmed ≠ mention) then
      (false, buf, p.2.2)
    else if mention.isPrefixOf trimmed then
      (true, buf, p.2.2 ++ stripMentionRemainder (trimmed.drop mention.length))
    else (true, buf, p.2.2 ++ buf)

/-- Forwarded text of the amended filter over a chunk stream, flushing an
unresolved non-empty buffer unchanged at the end. -/
def runMentionFilterAmended (target : Str) (chunks : List Str) : Str :=
  let p := chunks.foldl (mentionFilterAmendedStep target) (target.isEmpty, [], [])
  if ¬p.1 ∧ ¬p.2.1.isEmpty then p.2.2 ++ p.2.1 else p.2.2

/-! ## Helper lemmas -/

theorem isPrefixOf_length_lt {l m : Str} (h : l.isPrefixOf m = true) :
    l.length < m.length ↔ l ≠ m := by
  have hp : l <+: m := ( List.isPrefixOf_iff_prefix).mp h
  constructor
  · intro hlt heq
    exact absurd (heq ▸ hlt) (lt_irrefl _)
  · intro hne
    rcases lt_or_eq_of_le hp.length_le with hlt | hl
    · exact hlt
    · exact absurd (hp.eq_of_length hl) hne

theorem prefixOf_lt_eq_ne (l m : Str) :
    (l.isPrefixOf m && decide (l.length < m.length)) =
      (l.isPrefixOf m && decide (l ≠ m)) := by
  cases h : l.isPrefixOf m with
  | false => rfl
  | true =>
    simp only [Bool.true_and]
    exact decide_eq_decide.mpr (isPrefixOf_length_lt h)

/-- Equation: `_consume_leading_duplicate_mention` written with the amended
phrasing of its three cases (strict proper prefix instead of a length
comparison). -/
theorem consume_eq_branches (buf target : Str) :
    consume_leading_duplicate_mention buf target =
      (let trimmed := pyLstrip buf
       let mention : Str := '@' :: target
       if trimmed.isEmpty then ((false : Bool), ([] : Str))
       else if trimmed.isPrefixOf mention && decide (trimmed ≠ mention) then
         (false, [])
       else if mention.isPrefixOf trimmed then
         (true, stripMentionRemainder (trimmed.drop mention.length))
       else (true, buf)) := by
  unfold consume_leading_duplicate_mention stripMentionRemainder
  simp only [prefixOf_lt_eq_ne]

theorem pyLstrip_ne_nil_of_isEmpty_false {l : Str}
    (h : (pyLstrip l).isEmpty = false) : l.isEmpty = false := by
  cases l with
  | nil => simp [pyLstrip] at h
  | cons c t => rfl

theorem stripMentionRemainder_nil : stripMentionRemainder [] = [] := rfl

/-- One token of the streaming loop corresponds to one step of the
amended filter, componentwise on (resolved, buffer, forwarded text). -/
theorem replyTok_amended_corresp (target q2 q3 tok : Str) (q1 : Bool)
    (evs : List REvent) (ob : Bool) :
    (replyTok target ⟨⟨q1, q2⟩, q3, evs, ob⟩ tok).guard.resolved =
      (mentionFilterAmendedStep target (q1, q2, q3) tok).1 ∧
    (replyTok target ⟨⟨q1, q2⟩, q3, evs, ob⟩ tok).guard.buffer =
      (mentionFilterAmendedStep target (q1, q2, q3) tok).2.1 ∧
    (replyTok target ⟨⟨q1, q2⟩, q3, evs, ob⟩ tok).content =
      (mentionFilterAmendedStep target (q1, q2, q3) tok).2.2 := by
  by_cases htok : tok = []
  · simp [replyTok, mentionFilterAmendedStep, htok]
  · cases q1 with
    | true => simp [replyTok, mentionFilterAmendedStep, htok]
    | false =>
      by_cases hTE : pyLstrip (q2 ++ tok) = []
      · simp [replyTok, mentionFilterAmendedStep, consume_eq_branches, htok, hTE]
      · by_cases hA : pyLstrip (q2 ++ tok) <+: ('@' :: target : Str)
        · by_cases hB : pyLstrip (q2 ++ tok) = ('@' :: target : Str)
          · simp [replyTok, mentionFilterAmendedStep, consume_eq_branches,
                  htok, hTE, hB, List.prefix_refl, List.drop_length,
                  stripMentionRemainder_nil]
          · simp [replyTok, mentionFilterAmendedStep, consume_eq_branches,
                  htok, hTE, hA, hB]
        · by_cases hM : ('@' :: target : Str) <+: pyLstrip (q2 ++ tok)
          · by_cases hR :
                stripMentionRemainder
                  ((pyLstrip (q2 ++ tok)).drop (target.length + 1)) = []
            · simp [replyTok, mentionFilterAmendedStep, consume_eq_branches,
                    htok, hTE, hA, hM, hR]
            · simp [replyTok, mentionFilterAmendedStep, consume_eq_branches,
                    htok, hTE, hA, hM, hR]
          · have hbne : q2 ++ tok ≠ ([] : Str) := fun h =>
              htok (List.append_eq_nil.mp h).2
            simp [replyTok, mentionFilterAmendedStep, consume_eq_branches,
                  htok, hTE, hA, hM, hbne]

/-- Fold form of `replyTok_amended_corresp` over a whole chunk list. -/
theorem foldl_amended_corresp (target : Str) (chunks : List Str)
    (q2 q3 : Str) (q1 : Bool) (evs : List REvent) (ob : Bool) :
    (chunks.foldl (replyTok target) ⟨⟨q1, q2⟩, q3, evs, ob⟩).guard.resolved =
      (chunks.foldl (mentionFilterAmendedStep target) (q1, q2, q3)).1 ∧
    (chunks.foldl (replyTok target) ⟨⟨q1, q2⟩, q3, evs, ob⟩).guard.buffer =
      (chunks.foldl (mentionFilterAmendedStep target) (q1, q2, q3)).2.1 ∧
    (chunks.foldl (replyTok target) ⟨⟨q1, q2⟩, q3, evs, ob⟩).content =
      (chunks.foldl (mentionFilterAmendedStep target) (q1, q2, q3)).2.2 := by
  induction chunks generalizing q1 q2 q3 evs ob with
  | nil => exact ⟨rfl, rfl, rfl⟩
  | cons c cs ih =>
    simp only [List.foldl_cons]
    obtain ⟨h1, h2, h3⟩ := replyTok_amended_corresp target q2 q3 c q1 evs ob
    rcases hm : mentionFilterAmendedStep target (q1, q2, q3) c with ⟨m1, m2, m3⟩
    rw [hm] at h1 h2 h3
    dsimp only at h1 h2 h3
    have hA : replyTok target ⟨⟨q1, q2⟩, q3, evs, ob⟩ c =
        ⟨⟨m1, m2⟩, m3, (replyTok target ⟨⟨q1, q2⟩, q3, evs, ob⟩ c).events,
          (replyTok target ⟨⟨q1, q2⟩, q3, evs, ob⟩ c).outputStarted⟩ := by
      rw [← h1, ← h2, ← h3]
    rw [hA]
    exact ih m2 m3 m1 _ _

/-- The streaming mention-dedup filter coincides with its amended
description on every target and chunk stream. -/
theorem runMentionFilter_eq_amended (target : Str) (chunks : List Str) :
    runMentionFilter target chunks = runMentionFilterAmended target chunks := by
  unfold runMentionFilter runMentionFilterAmended
  obtain ⟨h1, h2, h3⟩ :=
    foldl_amended_corresp target chunks [] [] target.isEmpty [] false
  rcases hm : chunks.foldl (mentionFilterAmendedStep target)
      (target.isEmpty, [], []) with ⟨m1, m2, m3⟩
  rw [hm] at h1 h2 h3
  cases m1 with
  | true => simp [replyFlush, h1, h2, h3]
  | false =>
    by_cases hm2 : m2 = ([] : Str)
    · simp [replyFlush, h1, h2, h3, hm2]
    · simp [replyFlush, h1, h2, h3, hm2]

/-- C3 counterexample: with target name `Bob` the claim's expected
mention string is `"@Bob "`, under which the single chunk `"@Bob,hello"`
does not start with the mention and must be forwarded unchanged; the code
instead matches `"@Bob"` without the space, strips it together with the
comma, and forwards `"hello"`. -/
theorem C3_counterexample :
    runMentionFilter "Bob".toList ["@Bob,hello".toList] = "hello".toList ∧
    runMentionFilterClaimC3 "Bob".toList ["@Bob,hello".toList] =
      "@Bob,hello".toList ∧
    runMentionFilter "Bob".toList ["@Bob,hello".toList] ≠
      runMentionFilterClaimC3 "Bob".toList ["@Bob,hello".toList] :=
  ⟨by decide, by decide, by decide⟩

/-- C3 (amended): the mention-dedup filter buffers while the
whitespace-trimmed buffer is a strict proper prefix of `"@" ++ target`
(no trailing space); as soon as it is not, if it starts with
`"@" ++ target` the filter strips the mention, surrounding whitespace and
one optional punctuation mark and forwards the remainder, else forwards
the buffer unchanged; an unresolved stream end flushes unchanged.  The
claim's two examples hold: chunks `["@B","ob ","I think..."]` with target
`Bob` forward `"I think..."`, and chunks `["Hi ","there"]` forward
`"Hi there"` unchanged. -/
theorem C3_mention_dedup :
    (∀ target chunks,
        runMentionFilter target chunks = runMentionFilterAmended target chunks) ∧
    runMentionFilter "Bob".toList
        ["@B".toList, "ob ".toList, "I think...".toList] = "I think...".toList ∧
    runMentionFilter "Bob".toList ["Hi ".toList, "there".toList] =
      "Hi there".toList :=
  ⟨runMentionFilter_eq_amended, by decide, by decide⟩

/-- C4 counterexample: a decision with no key-point string passes all
reject conditions; the claim then has the (empty) normalized key-point
string pushed into the buffer, but `_approve_speech` only pushes non-empty
strings — the two state updates differ on the very first approval of a
fresh session. -/
theorem C4_counterexample :
    (approve_speech ⟨0, 0, 0, 0, 0⟩ initOrchState {}
        { action := AgentAction.comment } 1).1 = true ∧
    (approve_speech ⟨0, 0, 0, 0, 0⟩ initOrchState {}
        { action := AgentAction.comment } 1).2.recent_key_points = [] ∧
    (approve_speech_claimC4 ⟨0, 0, 0, 0, 0⟩ initOrchState {}
        { action := AgentAction.comment } 1).2.recent_key_points = [[]] ∧
    approve_speech ⟨0, 0, 0, 0, 0⟩ initOrchState {}
        { action := AgentAction.comment } 1 ≠
      approve_speech_claimC4 ⟨0, 0, 0, 0, 0⟩ initOrchState {}
        { action := AgentAction.comment } 1 := by
  have h1 : approve_speech ⟨0, 0, 0, 0, 0⟩ initOrchState {}
      { action := AgentAction.comment } 1 =
      (true, { initOrchState with last_global_speak_at := 1 }) := by
    norm_num [approve_speech, initOrchState, normalizeKeyPoints,
      pyStrip, pyLstrip, pyRstrip, toLowerStr]
  have h2 : approve_speech_claimC4 ⟨0, 0, 0, 0, 0⟩ initOrchState {}
      { action := AgentAction.comment } 1 =
      (true, { initOrchState with
                last_global_speak_at := 1
                recent_key_points := [[]] }) := by
    norm_num [approve_speech_claimC4, initOrchState, normalizeKeyPoints,
      pyStrip, pyLstrip, pyRstrip, toLowerStr, pushBounded]
  refine ⟨by rw [h1], by rw [h1]; simp [initOrchState], by rw [h2], ?_⟩
  rw [h1, h2]
  simp [initOrchState]

/-- C4 (amended): pacing approval rejects exactly when one of the four
conditions holds — cooldown, positive global interval not elapsed,
positive total cap reached, or the trimmed lowercased key-point string is
non-empty and already in the recent-key-point buffer — and otherwise
approves, recording `now` as the global speak time and pushing the
key-point string only when it is non-empty, the buffer holding at most 8
entries with the oldest evicted. -/
theorem C4_approve_speech (cfg : SessionConfig) (st : OrchState)
    (ag : AgentState) (d : AgentDecision) (now : Rat) :
    approve_speech cfg st ag d now = approve_speech_amended cfg st ag d now := by
  unfold approve_speech approve_speech_amended
  by_cases h1 : now - ag.last_spoke_at < cfg.agent_cooldown_seconds <;>
  by_cases h2 : cfg.global_speak_interval_seconds > 0 ∧
    now - st.last_global_speak_at < cfg.global_speak_interval_seconds <;>
  by_cases h3 : cfg.max_total_ai_messages > 0 ∧
    (st.total_ai_messages : Int) ≥ cfg.max_total_ai_messages <;>
  by_cases h4 : ¬(normalizeKeyPoints d.key_points).isEmpty = true ∧
    normalizeKeyPoints d.key_points ∈ st.recent_key_points <;>
  simp [h1, h2, h3, h4]

/-- C10: a decision whose key-point string is absent or trims to the
empty string is never rejected on duplicate-topic grounds — when the
three pacing conditions pass, it is approved — and the recent-key-point
buffer is left unchanged in every case. -/
theorem C10_empty_key_points (cfg : SessionConfig) (st : OrchState)
    (ag : AgentState) (d : AgentDecision) (now : Rat)
    (hkp : normalizeKeyPoints d.key_points = []) :
    (approve_speech cfg st ag d now).2.recent_key_points =
      st.recent_key_points ∧
    ((approve_speech cfg st ag d now).1 = false →
      now - ag.last_spoke_at < cfg.agent_cooldown_seconds ∨
      (cfg.global_speak_interval_seconds > 0 ∧
        now - st.last_global_speak_at < cfg.global_speak_interval_seconds) ∨
      (cfg.max_total_ai_messages > 0 ∧
        (st.total_ai_messages : Int) ≥ cfg.max_total_ai_messages)) := by
  unfold approve_speech
  by_cases h1 : now - ag.last_spoke_at < cfg.agent_cooldown_seconds <;>
  by_cases h2 : cfg.global_speak_interval_seconds > 0 ∧
    now - st.last_global_speak_at < cfg.global_speak_interval_seconds <;>
  by_cases h3 : cfg.max_total_ai_messages > 0 ∧
    (st.total_ai_messages : Int) ≥ cfg.max_total_ai_messages <;>
  simp [h1, h2, h3, hkp]

/-! ### Reply-stage helper lemmas -/

theorem replyTok_count (t : Str) (acc : ReplyAcc) (tok : Str) (e : REvent)
    (he : ∀ tk, e ≠ REvent.delta tk) :
    (replyTok t acc tok).events.count e = acc.events.count e := by
  by_cases h1 : tok.isEmpty = true <;>
  by_cases h2 : acc.guard.resolved = true <;>
  by_cases h3 : (consume_leading_duplicate_mention (acc.guard.buffer ++ tok) t).1 = true <;>
  by_cases h4 : (consume_leading_duplicate_mention (acc.guard.buffer ++ tok) t).2 = [] <;>
  simp [replyTok, h1, h2, h3, h4, List.count_append, List.count_cons, he]

theorem foldl_replyTok_count (t : Str) (toks : List Str) (acc : ReplyAcc)
    (e : REvent) (he : ∀ tk, e ≠ REvent.delta tk) :
    (toks.foldl (replyTok t) acc).events.count e = acc.events.count e := by
  induction toks generalizing acc with
  | nil => rfl
  | cons c cs ih =>
    rw [List.foldl_cons, ih (replyTok t acc c) ]
    exact replyTok_count t acc c e he

theorem replyFlush_count (acc : ReplyAcc) (e : REvent)
    (he : ∀ tk, e ≠ REvent.delta tk) :
    (replyFlush acc).events.count e = acc.events.count e := by
  unfold replyFlush
  split
  · simp [List.count_append, List.count_singleton, he]
  · rfl

theorem runAttempt_count (t : Str) (acc : ReplyAcc) (a : AttemptStream)
    (e : REvent) (he : ∀ tk, e ≠ REvent.delta tk) :
    (runAttempt t acc a).1.events.count e = acc.events.count e := by
  unfold runAttempt
  rcases a with ⟨toks, o⟩
  cases o <;> simp [replyFlush_count _ _ he, foldl_replyTok_count t toks acc e he]

theorem replyAcc0_count (mt : Str) (e : REvent) (hs : e ≠ REvent.started)
    (he : ∀ tk, e ≠ REvent.delta tk) :
    (replyAcc0 mt).events.count e = 0 := by
  unfold replyAcc0
  split <;> simp [List.count_cons, List.count_singleton, hs, he,
    List.count_eq_zero]

theorem replyTok_content_extend (t : Str) (acc : ReplyAcc) (tok : Str) :
    ∃ s, (replyTok t acc tok).content = acc.content ++ s := by
  by_cases h1 : tok.isEmpty = true <;>
  by_cases h2 : acc.guard.resolved = true <;>
  by_cases h3 : (consume_leading_duplicate_mention (acc.guard.buffer ++ tok) t).1 = true <;>
  by_cases h4 : (consume_leading_duplicate_mention (acc.guard.buffer ++ tok) t).2 = [] <;>
  simp [replyTok, h1, h2, h3, h4]

theorem foldl_replyTok_content_extend (t : Str) (toks : List Str)
    (acc : ReplyAcc) :
    ∃ s, (toks.foldl (replyTok t) acc).content = acc.content ++ s := by
  induction toks generalizing acc with
  | nil => exact ⟨[], by simp⟩
  | cons c cs ih =>
    obtain ⟨s1, h1⟩ := replyTok_content_extend t acc c
    obtain ⟨s2, h2⟩ := ih (replyTok t acc c)
    exact ⟨s1 ++ s2, by rw [List.foldl_cons, h2, h1, List.append_assoc]⟩

theorem replyFlush_content_extend (acc : ReplyAcc) :
    ∃ s, (replyFlush acc).content = acc.content ++ s := by
  unfold replyFlush
  split
  · exact ⟨_, rfl⟩
  · exact ⟨[], by simp⟩

theorem runAttempt_content_extend (t : Str) (acc : ReplyAcc)
    (a : AttemptStream) :
    ∃ s, (runAttempt t acc a).1.content = acc.content ++ s := by
  unfold runAttempt
  rcases a with ⟨toks, o⟩
  obtain ⟨s1, h1⟩ := foldl_replyTok_content_extend t toks acc
  cases o with
  | ok =>
    obtain ⟨s2, h2⟩ := replyFlush_content_extend (toks.foldl (replyTok t) acc)
    exact ⟨s1 ++ s2, by simp [h2, h1, List.append_assoc]⟩
  | err m => exact ⟨s1, h1⟩
  | cancelled => exact ⟨s1, h1⟩

theorem pyStrip_cons_not_space {c : Char} (xs : Str)
    (hc : pyIsSpace c = false) : pyStrip (c :: xs) ≠ [] := by
  intro h
  unfold pyStrip pyLstrip pyRstrip at h
  rw [List.dropWhile_cons] at h
  rw [hc] at h
  simp only [Bool.false_eq_true, if_false] at h
  rw [List.reverse_eq_nil_iff, List.dropWhile_eq_nil_iff] at h
  have := h c (by simp)
  rw [hc] at this
  exact Bool.false_ne_true this

/-- The caller's behaviour depends only on whether `CancelledError`
propagated out of `generate_agent_reply`: any normal return is appended. -/
theorem generate_reply_caller_eq_of_errored (st : OrchState) (ag : AgentState)
    (iid nick mid : Str) (d : AgentDecision) (run : ReplyRun) (now : Rat)
    (m : Str) (h : run.outcome = ReplyOutcome.errored m) :
    generate_reply_caller st ag iid nick d run mid now =
      ({ st with
          messages := st.messages ++
            [⟨mid, "ai".toList, some iid, nick, run.content,
              d.target_message_id, d.target_author_name⟩]
          message_version := st.message_version + 1
          last_activity_at := now
          total_ai_messages := st.total_ai_messages + 1 },
        { ag with last_spoke_at := now }, false,
        run.events ++ [REvent.completedEv run.content]) := by
  simp [generate_reply_caller, h, add_message]

theorem runAttempt_snd (t : Str) (acc : ReplyAcc) (a : AttemptStream) :
    (runAttempt t acc a).2 = a.outcome := by
  rcases a with ⟨toks, o⟩
  cases o <;> rfl

/-- On the errored path the emitted events are the accumulated
started/delta events followed by exactly one `error` event. -/
theorem gar_errored_count (action : AgentAction) (target : Option Str)
    (a0 a1 : AttemptStream) (m : Str)
    (h : (generate_agent_reply action target
        (ReplyScript.attempts a0 a1)).outcome = ReplyOutcome.errored m) :
    (generate_agent_reply action target
        (ReplyScript.attempts a0 a1)).events.count (REvent.errorEv m) = 1 := by
  have he : ∀ tk, REvent.errorEv m ≠ REvent.delta tk := by intro tk; simp
  have hs : REvent.errorEv m ≠ REvent.started := by simp
  rcases a0 with ⟨t0, o0⟩
  simp only [generate_agent_reply, runAttempt_snd] at h ⊢
  cases o0 with
  | ok => simp [garStage0] at h
  | cancelled => simp [garStage0] at h
  | err m0 =>
    simp only [garStage0] at h ⊢
    by_cases hr : (is_transient_timeout_error m0 &&
        (pyStrip (runAttempt (mentionTargetOf action target)
          (replyAcc0 (mentionTargetOf action target))
          ⟨t0, StreamOutcome.err m0⟩).1.content).isEmpty) = true
    · rw [if_pos hr] at h ⊢
      rw [runAttempt_snd] at h ⊢
      rcases a1 with ⟨t1, o1⟩
      cases o1 with
      | ok => simp [garStage1] at h
      | cancelled => simp [garStage1] at h
      | err m1 =>
        have hm : m1 = m := by
          simp [garStage1] at h
          exact h
        subst hm
        simp [garStage1, List.count_append,
          runAttempt_count _ _ _ _ he, replyAcc0_count _ _ hs he]
    · rw [if_neg hr] at h ⊢
      have hm : m0 = m := by
        simp at h
        exact h
      subst hm
      simp [List.count_append,
        runAttempt_count _ _ _ _ he, replyAcc0_count _ _ hs he]

/-- C1 (amended): a reply-stage run that fails with a non-cancellation
exception emits exactly one `error` event, but the exception is swallowed
and `generate_agent_reply` returns the partial content: the caller
`_generate_reply` then appends a message with that content, bumps the log
version and the agent-message count, sets the last-activity and
last-spoken times, and emits `message_completed`. -/
theorem C1_error_append (action : AgentAction) (target : Option Str)
    (a0 a1 : AttemptStream) (st : OrchState) (ag : AgentState)
    (iid nick mid : Str) (d : AgentDecision) (now : Rat) (m : Str)
    (run : ReplyRun)
    (hrun : run = generate_agent_reply action target (ReplyScript.attempts a0 a1))
    (h : run.outcome = ReplyOutcome.errored m) :
    run.events.count (REvent.errorEv m) = 1 ∧
    generate_reply_caller st ag iid nick d run mid now =
      ({ st with
          messages := st.messages ++
            [⟨mid, "ai".toList, some iid, nick, run.content,
              d.target_message_id, d.target_author_name⟩]
          message_version := st.message_version + 1
          last_activity_at := now
          total_ai_messages := st.total_ai_messages + 1 },
        { ag with last_spoke_at := now }, false,
        run.events ++ [REvent.completedEv run.content]) := by
  subst hrun
  exact ⟨gar_errored_count action target a0 a1 m h,
    generate_reply_caller_eq_of_errored st ag iid nick mid d _ now m h⟩

/-- Closed instance of `C1_error_append`: a stream failing immediately
with a non-timeout error after one delta. -/
theorem C1_error_append_witness :
    (generate_agent_reply AgentAction.comment none
        (ReplyScript.attempts ⟨["He".toList], StreamOutcome.err "boom".toList⟩
          ⟨[], StreamOutcome.ok⟩)).events.count
        (REvent.errorEv "boom".toList) = 1 ∧
    generate_reply_caller initOrchState {} "a1".toList "Ann".toList
        { action := AgentAction.comment }
        (generate_agent_reply AgentAction.comment none
          (ReplyScript.attempts ⟨["He".toList], StreamOutcome.err "boom".toList⟩
            ⟨[], StreamOutcome.ok⟩)) "m".toList 5 =
      ({ initOrchState with
          messages := initOrchState.messages ++
            [⟨"m".toList, "ai".toList, some "a1".toList, "Ann".toList,
              (generate_agent_reply AgentAction.comment none
                (ReplyScript.attempts
                  ⟨["He".toList], StreamOutcome.err "boom".toList⟩
                  ⟨[], StreamOutcome.ok⟩)).content, none, none⟩]
          message_version := initOrchState.message_version + 1
          last_activity_at := 5
          total_ai_messages := initOrchState.total_ai_messages + 1 },
        { ({} : AgentState) with last_spoke_at := 5 }, false,
        (generate_agent_reply AgentAction.comment none
          (ReplyScript.attempts ⟨["He".toList], StreamOutcome.err "boom".toList⟩
            ⟨[], StreamOutcome.ok⟩)).events ++
          [REvent.completedEv
            (generate_agent_reply AgentAction.comment none
              (ReplyScript.attempts
                ⟨["He".toList], StreamOutcome.err "boom".toList⟩
                ⟨[], StreamOutcome.ok⟩)).content]) :=
  C1_error_append AgentAction.comment none
    ⟨["He".toList], StreamOutcome.err "boom".toList⟩ ⟨[], StreamOutcome.ok⟩
    initOrchState {} "a1".toList "Ann".toList "m".toList
    { action := AgentAction.comment } 5 "boom".toList _ rfl (by decide)

/-- C1 counterexample: on a run that fails with the non-cancellation
exception `boom`, an `error` event is emitted and yet a message IS
appended — the log grows by one, the agent-message count increases and
both times move — contradicting the claim that nothing changes. -/
theorem C1_counterexample :
    REvent.errorEv "boom".toList ∈
      (generate_agent_reply AgentAction.comment none
        (ReplyScript.attempts ⟨["He".toList], StreamOutcome.err "boom".toList⟩
          ⟨[], StreamOutcome.ok⟩)).events ∧
    (generate_reply_caller initOrchState {} "a1".toList "Ann".toList
        { action := AgentAction.comment }
        (generate_agent_reply AgentAction.comment none
          (ReplyScript.attempts ⟨["He".toList], StreamOutcome.err "boom".toList⟩
            ⟨[], StreamOutcome.ok⟩)) "m".toList 5).1.messages.length =
      initOrchState.messages.length + 1 ∧
    (generate_reply_caller initOrchState {} "a1".toList "Ann".toList
        { action := AgentAction.comment }
        (generate_agent_reply AgentAction.comment none
          (ReplyScript.attempts ⟨["He".toList], StreamOutcome.err "boom".toList⟩
            ⟨[], StreamOutcome.ok⟩)) "m".toList 5).1.total_ai_messages =
      initOrchState.total_ai_messages + 1 ∧
    (generate_reply_caller initOrchState {} "a1".toList "Ann".toList
        { action := AgentAction.comment }
        (generate_agent_reply AgentAction.comment none
          (ReplyScript.attempts ⟨["He".toList], StreamOutcome.err "boom".toList⟩
            ⟨[], StreamOutcome.ok⟩)) "m".toList 5).1.last_activity_at = 5 ∧
    (generate_reply_caller initOrchState {} "a1".toList "Ann".toList
        { action := AgentAction.comment }
        (generate_agent_reply AgentAction.comment none
          (ReplyScript.attempts ⟨["He".toList], StreamOutcome.err "boom".toList⟩
            ⟨[], StreamOutcome.ok⟩)) "m".toList 5).2.1.last_spoke_at = 5 :=
  ⟨by decide, by decide, by decide, rfl, rfl⟩

theorem garStage1_attempts (acc : ReplyAcc) (o : StreamOutcome) :
    (garStage1 acc o).attemptsUsed = 2 := by
  cases o <;> rfl

/-- On a cancellation inside the attempt loop, the events are the
accumulated started/delta events followed by exactly one
`message_cancelled` event carrying the accumulated content. -/
theorem gar_cancelled_events (action : AgentAction) (target : Option Str)
    (a0 a1 : AttemptStream)
    (h : (generate_agent_reply action target
        (ReplyScript.attempts a0 a1)).outcome = ReplyOutcome.cancelledRun) :
    (generate_agent_reply action target
        (ReplyScript.attempts a0 a1)).events.count
      (REvent.cancelledEv
        (generate_agent_reply action target
          (ReplyScript.attempts a0 a1)).content) = 1 ∧
    (generate_agent_reply action target
        (ReplyScript.attempts a0 a1)).events.getLast? =
      some (REvent.cancelledEv
        (generate_agent_reply action target
          (ReplyScript.attempts a0 a1)).content) := by
  rcases a0 with ⟨t0, o0⟩
  simp only [generate_agent_reply, runAttempt_snd] at h ⊢
  cases o0 with
  | ok => simp [garStage0] at h
  | cancelled =>
    simp only [garStage0]
    constructor
    · have he : ∀ tk,
          REvent.cancelledEv (runAttempt (mentionTargetOf action target)
            (replyAcc0 (mentionTargetOf action target))
            ⟨t0, StreamOutcome.cancelled⟩).1.content ≠ REvent.delta tk := by
        intro tk; simp
      have hs : REvent.cancelledEv (runAttempt (mentionTargetOf action target)
          (replyAcc0 (mentionTargetOf action target))
          ⟨t0, StreamOutcome.cancelled⟩).1.content ≠ REvent.started := by simp
      simp [List.count_append, runAttempt_count _ _ _ _ he,
        replyAcc0_count _ _ hs he]
    · exact List.getLast?_concat _
  | err m0 =>
    simp only [garStage0] at h ⊢
    by_cases hr : (is_transient_timeout_error m0 &&
        (pyStrip (runAttempt (mentionTargetOf action target)
          (replyAcc0 (mentionTargetOf action target))
          ⟨t0, StreamOutcome.err m0⟩).1.content).isEmpty) = true
    · rw [if_pos hr] at h ⊢
      rw [runAttempt_snd] at h ⊢
      rcases a1 with ⟨t1, o1⟩
      cases o1 with
      | ok => simp [garStage1] at h
      | err m1 => simp [garStage1] at h
      | cancelled =>
        simp only [garStage1]
        constructor
        · have he : ∀ tk,
              REvent.cancelledEv (runAttempt (mentionTargetOf action target)
                (runAttempt (mentionTargetOf action target)
                  (replyAcc0 (mentionTargetOf action target))
                  ⟨t0, StreamOutcome.err m0⟩).1
                ⟨t1, StreamOutcome.cancelled⟩).1.content ≠ REvent.delta tk := by
            intro tk; simp
          have hs : REvent.cancelledEv (runAttempt (mentionTargetOf action target)
              (runAttempt (mentionTargetOf action target)
                (replyAcc0 (mentionTargetOf action target))
                ⟨t0, StreamOutcome.err m0⟩).1
              ⟨t1, StreamOutcome.cancelled⟩).1.content ≠ REvent.started := by
            simp
          simp [List.count_append, runAttempt_count _ _ _ _ he,
            replyAcc0_count _ _ hs he]
        · exact List.getLast?_concat _
    · rw [if_neg hr] at h
      simp at h

/-- C2 (amended): a reply-stage run cancelled anywhere inside the
streaming attempt loop (including during the retry sleep) emits exactly
one `message_cancelled` event, as the last event, carrying the partial
text accumulated so far; the cancellation is re-raised, and the caller
appends nothing and changes no state.  (A cancellation delivered before
the loop is entered propagates without the event — see the
counterexample.) -/
theorem C2_cancelled (action : AgentAction) (target : Option Str)
    (a0 a1 : AttemptStream) (st : OrchState) (ag : AgentState)
    (iid nick mid : Str) (d : AgentDecision) (now : Rat) (run : ReplyRun)
    (hrun : run = generate_agent_reply action target (ReplyScript.attempts a0 a1))
    (h : run.outcome = ReplyOutcome.cancelledRun) :
    run.events.count (REvent.cancelledEv run.content) = 1 ∧
    run.events.getLast? = some (REvent.cancelledEv run.content) ∧
    generate_reply_caller st ag iid nick d run mid now = (st, ag, true, run.events) := by
  have hcaller : generate_reply_caller st ag iid nick d run mid now =
      (st, ag, true, run.events) := by
    simp [generate_reply_caller, h]
  subst hrun
  obtain ⟨h1, h2⟩ := gar_cancelled_events action target a0 a1 h
  exact ⟨h1, h2, hcaller⟩

/-- Closed instance of `C2_cancelled`: cancellation after one delta. -/
theorem C2_cancelled_witness :
    (generate_agent_reply AgentAction.comment none
        (ReplyScript.attempts ⟨["He".toList], StreamOutcome.cancelled⟩
          ⟨[], StreamOutcome.ok⟩)).events.count
      (REvent.cancelledEv
        (generate_agent_reply AgentAction.comment none
          (ReplyScript.attempts ⟨["He".toList], StreamOutcome.cancelled⟩
            ⟨[], StreamOutcome.ok⟩)).content) = 1 ∧
    (generate_agent_reply AgentAction.comment none
        (ReplyScript.attempts ⟨["He".toList], StreamOutcome.cancelled⟩
          ⟨[], StreamOutcome.ok⟩)).events.getLast? =
      some (REvent.cancelledEv
        (generate_agent_reply AgentAction.comment none
          (ReplyScript.attempts ⟨["He".toList], StreamOutcome.cancelled⟩
            ⟨[], StreamOutcome.ok⟩)).content) ∧
    generate_reply_caller initOrchState {} "a1".toList "Ann".toList
        { action := AgentAction.comment }
        (generate_agent_reply AgentAction.comment none
          (ReplyScript.attempts ⟨["He".toList], StreamOutcome.cancelled⟩
            ⟨[], StreamOutcome.ok⟩)) "m".toList 5 =
      (initOrchState, {}, true,
        (generate_agent_reply AgentAction.comment none
          (ReplyScript.attempts ⟨["He".toList], StreamOutcome.cancelled⟩
            ⟨[], StreamOutcome.ok⟩)).events) :=
  C2_cancelled AgentAction.comment none
    ⟨["He".toList], StreamOutcome.cancelled⟩ ⟨[], StreamOutcome.ok⟩
    initOrchState {} "a1".toList "Ann".toList "m".toList
    { action := AgentAction.comment } 5 _ rfl (by decide)

/-- C2 counterexample: a generation task cancelled before the streaming
try-block is entered (at the `message_started` emit, or before the task
body first runs) propagates the cancellation with NO `message_cancelled`
event — the claim's "exactly one cancelled event at any cancellation
point" fails.  No message is appended, as the caller check shows. -/
theorem C2_counterexample :
    (generate_agent_reply AgentAction.comment none ReplyScript.preTryCancel).outcome =
      ReplyOutcome.cancelledRun ∧
    (generate_agent_reply AgentAction.comment none ReplyScript.preTryCancel).events =
      [REvent.started] ∧
    generate_reply_caller initOrchState {} "a1".toList "Ann".toList
        { action := AgentAction.comment }
        (generate_agent_reply AgentAction.comment none ReplyScript.preTryCancel)
        "m".toList 5 =
      (initOrchState, {}, true, [REvent.started]) :=
  ⟨rfl, rfl, rfl⟩

/-- C6 counterexample: attempt 0 forwards the whitespace delta `" "`
(output IS emitted to the sink) and then hits a transient timeout; since
`full_content.strip()` is empty the code retries anyway and the run
completes — the claim says an emitted delta should have suppressed the
retry and invoked the failure semantics. -/
theorem C6_counterexample :
    (generate_agent_reply AgentAction.comment none
        (ReplyScript.attempts ⟨[" ".toList], StreamOutcome.err "timeout".toList⟩
          ⟨["hi".toList], StreamOutcome.ok⟩)).events =
      [REvent.started, REvent.delta " ".toList, REvent.delta "hi".toList] ∧
    (generate_agent_reply AgentAction.comment none
        (ReplyScript.attempts ⟨[" ".toList], StreamOutcome.err "timeout".toList⟩
          ⟨["hi".toList], StreamOutcome.ok⟩)).attemptsUsed = 2 ∧
    (generate_agent_reply AgentAction.comment none
        (ReplyScript.attempts ⟨[" ".toList], StreamOutcome.err "timeout".toList⟩
          ⟨["hi".toList], StreamOutcome.ok⟩)).outcome = ReplyOutcome.completed :=
  ⟨by decide, by decide, by decide⟩

/-- C6 (amended): the reply stage retries at most once, and exactly when
attempt 0 failed with a classified transient timeout while the
accumulated content is empty after whitespace-stripping — not when no
output was emitted: a whitespace-only delta does not block the retry,
while the canonical mention prefix (or any non-whitespace output) does;
in particular with a mention target no retry ever happens. -/
theorem C6_retry_policy (action : AgentAction) (target : Option Str)
    (a0 a1 : AttemptStream) :
    (generate_agent_reply action target
        (ReplyScript.attempts a0 a1)).attemptsUsed ≤ 2 ∧
    ((generate_agent_reply action target
        (ReplyScript.attempts a0 a1)).attemptsUsed = 2 ↔
      ∃ m, a0.outcome = StreamOutcome.err m ∧
        is_transient_timeout_error m = true ∧
        pyStrip (runAttempt (mentionTargetOf action target)
          (replyAcc0 (mentionTargetOf action target)) a0).1.content = []) ∧
    (mentionTargetOf action target ≠ [] →
      (generate_agent_reply action target
        (ReplyScript.attempts a0 a1)).attemptsUsed = 1) := by
  rcases a0 with ⟨t0, o0⟩
  simp only [generate_agent_reply, runAttempt_snd]
  cases o0 with
  | ok =>
    refine ⟨by simp [garStage0], by simp [garStage0], fun _ => by simp [garStage0]⟩
  | cancelled =>
    refine ⟨by simp [garStage0], by simp [garStage0], fun _ => by simp [garStage0]⟩
  | err m0 =>
    simp only [garStage0]
    by_cases hr : (is_transient_timeout_error m0 &&
        (pyStrip (runAttempt (mentionTargetOf action target)
          (replyAcc0 (mentionTargetOf action target))
          ⟨t0, StreamOutcome.err m0⟩).1.content).isEmpty) = true
    · rw [Bool.and_eq_true, List.isEmpty_iff] at hr
      refine ⟨?_, ?_, ?_⟩
      · rw [if_pos]
        · rw [garStage1_attempts]
        · rw [Bool.and_eq_true, List.isEmpty_iff]
          exact hr
      · rw [if_pos]
        · simp only [garStage1_attempts]
          constructor
          · intro _
            exact ⟨m0, rfl, hr.1, hr.2⟩
          · intro _
            trivial
        · rw [Bool.and_eq_true, List.isEmpty_iff]
          exact hr
      · intro hmt
        exfalso
        obtain ⟨s, hs⟩ := runAttempt_content_extend (mentionTargetOf action target)
          (replyAcc0 (mentionTargetOf action target)) ⟨t0, StreamOutcome.err m0⟩
        have hmt' : (mentionTargetOf action target).isEmpty = false := by
          cases hx : mentionTargetOf action target with
          | nil => exact absurd hx hmt
          | cons c cs => rfl
        have hacc : (replyAcc0 (mentionTargetOf action target)).content =
            '@' :: (mentionTargetOf action target ++ [' ']) := by
          unfold replyAcc0
          rw [hmt']
          simp
        rw [hacc] at hs
        have : pyStrip (runAttempt (mentionTargetOf action target)
            (replyAcc0 (mentionTargetOf action target))
            ⟨t0, StreamOutcome.err m0⟩).1.content ≠ [] := by
          rw [hs]
          exact pyStrip_cons_not_space _ (by decide)
        exact this hr.2
    · refine ⟨?_, ?_, ?_⟩
      · rw [if_neg hr]
        exact Nat.le_succ 1
      · rw [if_neg hr]
        constructor
        · intro hco
          exact absurd (show (1 : Nat) = 2 from hco) (by decide)
        · rintro ⟨m, hm, htr, hstrip⟩
          exfalso
          apply hr
          rw [Bool.and_eq_true, List.isEmpty_iff]
          cases hm
          exact ⟨htr, hstrip⟩
      · intro _
        rw [if_neg hr]

/-- Closed instance of `C6_retry_policy`: a transient timeout behind a
mention prefix (output already emitted) is not retried. -/
theorem C6_retry_policy_witness :
    (generate_agent_reply AgentAction.reply_ai (some "Bob".toList)
        (ReplyScript.attempts ⟨[], StreamOutcome.err "timeout".toList⟩
          ⟨[], StreamOutcome.ok⟩)).attemptsUsed = 1 :=
  (C6_retry_policy AgentAction.reply_ai (some "Bob".toList)
    ⟨[], StreamOutcome.err "timeout".toList⟩ ⟨[], StreamOutcome.ok⟩).2.2
    (by decide)

/-- C7: the decision stage makes at most 3 attempts; a second or third
attempt happens only after a timeout-classified failure (a missing or
invalid structured response raises a `ValueError` whose message is not
timeout-classified, so it is never retried); the backoff before the k-th
retry is `0.8 × k` seconds; cancellation ends the loop at once with the
cancellation re-raised; every other terminal failure, including retry
exhaustion, yields the default silent decision rather than an error. -/
theorem C7_decision_retry (o0 o1 o2 : DecideOutcome) :
    (decide_agent_action o0 o1 o2).attemptsUsed ≤ 3 ∧
    ((decide_agent_action o0 o1 o2).attemptsUsed ≥ 2 →
      retriableOutcome o0 = true) ∧
    ((decide_agent_action o0 o1 o2).attemptsUsed = 3 →
      retriableOutcome o0 = true ∧ retriableOutcome o1 = true) ∧
    (decide_agent_action o0 o1 o2).delays =
      (List.range ((decide_agent_action o0 o1 o2).attemptsUsed - 1)).map
        (fun i => (4 : Rat) / 5 * (i + 1)) ∧
    ((decide_agent_action o0 o1 o2).result = DecideResult.raisedCancelled ↔
      (o0 = DecideOutcome.cancelled ∨
        (retriableOutcome o0 = true ∧ (o1 = DecideOutcome.cancelled ∨
          (retriableOutcome o1 = true ∧ o2 = DecideOutcome.cancelled))))) ∧
    ((decide_agent_action o0 o1 o2).result = DecideResult.decided ↔
      (o0 = DecideOutcome.ok true ∨
        (retriableOutcome o0 = true ∧ (o1 = DecideOutcome.ok true ∨
          (retriableOutcome o1 = true ∧ o2 = DecideOutcome.ok true))))) := by
  have hval : is_transient_timeout_error valueErrorMsg = false := by decide
  cases o0 with
  | ok v0 =>
    cases v0
    · simp [decide_agent_action, decide_step, hval, retriableOutcome]
    · simp [decide_agent_action, decide_step, retriableOutcome]
  | cancelled => simp [decide_agent_action, decide_step, retriableOutcome]
  | err m0 =>
    by_cases ht0 : is_transient_timeout_error m0 = true
    · cases o1 with
      | ok v1 =>
        cases v1
        · simp [decide_agent_action, decide_step, hval, retriableOutcome, ht0,
            List.range_succ]
        · simp [decide_agent_action, decide_step, retriableOutcome, ht0,
            List.range_succ]
      | cancelled =>
        simp [decide_agent_action, decide_step, retriableOutcome, ht0,
          List.range_succ]
      | err m1 =>
        by_cases ht1 : is_transient_timeout_error m1 = true
        · cases o2 with
          | ok v2 =>
            cases v2
            · simp [decide_agent_action, decide_step, hval, retriableOutcome,
                ht0, ht1, List.range_succ]
            · simp [decide_agent_action, decide_step, retriableOutcome,
                ht0, ht1, List.range_succ]
          | cancelled =>
            simp [decide_agent_action, decide_step, retriableOutcome,
              ht0, ht1, List.range_succ]
          | err m2 =>
            simp [decide_agent_action, decide_step, retriableOutcome,
              ht0, ht1, List.range_succ]
        · simp [decide_agent_action, decide_step, retriableOutcome, ht0, ht1,
            List.range_succ]
    · simp [decide_agent_action, decide_step, retriableOutcome, ht0]

/-- Closed instance of `C7_decision_retry`: two transient timeouts then a
valid structured response — three attempts, decided. -/
theorem C7_decision_retry_witness :
    (decide_agent_action (DecideOutcome.err "timeout".toList)
        (DecideOutcome.err "deadline exceeded".toList)
        (DecideOutcome.ok true)).result = DecideResult.decided :=
  (C7_decision_retry (DecideOutcome.err "timeout".toList)
    (DecideOutcome.err "deadline exceeded".toList)
    (DecideOutcome.ok true)).2.2.2.2.2.mpr (by decide)

/-- C8: each monitor tick checks its three termination conditions in
fixed order and the first match ends the session — the reason is
`max_total_ai_messages` iff the positive cap is reached; `pause_timeout`
iff the cap did not match, the session is paused with a recorded pause
start, and the positive pause timeout has elapsed; `silence_timeout` iff
neither earlier condition matched, the session is not paused, the silence
window has elapsed and there is no in-flight generation and no pending
decision.  In particular with cap 3, as soon as the third agent message
has been counted the next tick ends the session with reason
`max_total_ai_messages`. -/
theorem C8_monitor_order (cfg : SessionConfig) (st : OrchState) (now : Rat) :
    (monitor_tick cfg st now = some EndReason.max_total_ai_messages ↔
      cfg.max_total_ai_messages > 0 ∧
        (st.total_ai_messages : Int) ≥ cfg.max_total_ai_messages) ∧
    (monitor_tick cfg st now = some EndReason.pause_timeout ↔
      ¬(cfg.max_total_ai_messages > 0 ∧
          (st.total_ai_messages : Int) ≥ cfg.max_total_ai_messages) ∧
        st.generation_paused = true ∧
        ∃ p, st.paused_since = some p ∧
          cfg.pause_timeout_seconds > 0 ∧ now - p ≥ cfg.pause_timeout_seconds) ∧
    (monitor_tick cfg st now = some EndReason.silence_timeout ↔
      ¬(cfg.max_total_ai_messages > 0 ∧
          (st.total_ai_messages : Int) ≥ cfg.max_total_ai_messages) ∧
        st.generation_paused = false ∧
        now - st.last_activity_at ≥ cfg.silence_end_seconds ∧
        st.generation_count = 0 ∧ st.pending_decisions = 0) ∧
    (cfg.max_total_ai_messages = 3 → st.total_ai_messages = 3 →
      monitor_tick cfg st now = some EndReason.max_total_ai_messages) := by
  by_cases hcap : cfg.max_total_ai_messages > 0 ∧
      (st.total_ai_messages : Int) ≥ cfg.max_total_ai_messages
  · refine ⟨by simp [monitor_tick, hcap], by simp [monitor_tick, hcap],
      by simp [monitor_tick, hcap], fun _ _ => by simp [monitor_tick, hcap]⟩
  · have hinst : cfg.max_total_ai_messages = 3 → st.total_ai_messages = 3 →
        monitor_tick cfg st now = some EndReason.max_total_ai_messages := by
      intro h1 h2
      exact absurd ⟨by rw [h1]; decide, by rw [h1, h2]; decide⟩ hcap
    by_cases hp : st.generation_paused = true
    · cases hps : st.paused_since with
      | none =>
        refine ⟨by simp [monitor_tick, hcap, hp, hps],
          by simp [monitor_tick, hcap, hp, hps],
          by simp [monitor_tick, hcap, hp, hps], hinst⟩
      | some p =>
        by_cases hpt : cfg.pause_timeout_seconds > 0 ∧
            now - p ≥ cfg.pause_timeout_seconds
        · refine ⟨by simp [monitor_tick, hcap, hp, hps, hpt],
            by simp [monitor_tick, hcap, hp, hps, hpt],
            by simp [monitor_tick, hcap, hp, hps, hpt], hinst⟩
        · refine ⟨by simp [monitor_tick, hcap, hp, hps, hpt],
            by simp [monitor_tick, hcap, hp, hps, hpt],
            by simp [monitor_tick, hcap, hp, hps, hpt], hinst⟩
    · rw [Bool.not_eq_true] at hp
      by_cases hsil : now - st.last_activity_at ≥ cfg.silence_end_seconds ∧
          st.generation_count = 0 ∧ st.pending_decisions = 0
      · refine ⟨by simp [monitor_tick, hcap, hp, hsil],
          by simp [monitor_tick, hcap, hp, hsil],
          by simp [monitor_tick, hcap, hp, hsil], hinst⟩
      · refine ⟨by simp [monitor_tick, hcap, hp, hsil],
          by simp [monitor_tick, hcap, hp, hsil],
          by simp [monitor_tick, hcap, hp, hsil], hinst⟩

/-- Closed instance of `C8_monitor_order`: cap 3 reached ends the session
with reason `max_total_ai_messages` on the next tick even while paused. -/
theorem C8_monitor_order_witness :
    monitor_tick ⟨0, 0, 0, 3, 0⟩
      { initOrchState with total_ai_messages := 3, generation_paused := true }
      1 = some EndReason.max_total_ai_messages :=
  (C8_monitor_order ⟨0, 0, 0, 3, 0⟩
    { initOrchState with total_ai_messages := 3, generation_paused := true }
    1).2.2.2 rfl rfl

theorem logStep_observed_le (p : OrchState × AgentState) (op : LogOp) :
    p.2.last_seen_message_version ≤ (logStep p op).2.last_seen_message_version := by
  cases op with
  | append m => exact Nat.le_refl _
  | workerWait =>
    unfold logStep
    by_cases h : ¬p.1.ended = true ∧
        p.1.message_version > p.2.last_seen_message_version
    · rw [if_pos h]
      exact Nat.le_of_lt h.2
    · rw [if_neg h]

/-- C9: over any interleaving of appends and worker waits, the log
version grows by exactly one per append and always equals the message
count when it did initially; a trace with no append leaves the message
list untouched (appending is the only mutation); and the worker's
last-observed version never decreases. -/
theorem C9_log_version (st : OrchState) (ag : AgentState) (tr : List LogOp) :
    (runLog (st, ag) tr).1.message_version =
      st.message_version + countAppends tr ∧
    (runLog (st, ag) tr).1.messages.length =
      st.messages.length + countAppends tr ∧
    (st.message_version = st.messages.length →
      (runLog (st, ag) tr).1.message_version =
        (runLog (st, ag) tr).1.messages.length) ∧
    ag.last_seen_message_version ≤
      (runLog (st, ag) tr).2.last_seen_message_version ∧
    (countAppends tr = 0 → (runLog (st, ag) tr).1.messages = st.messages) ∧
    (∀ m, (logStep (st, ag) (LogOp.append m)).1.message_version =
      st.message_version + 1) := by
  induction tr generalizing st ag with
  | nil =>
    refine ⟨by simp [runLog, countAppends], by simp [runLog, countAppends],
      fun h => by simpa [runLog, countAppends] using h,
      Nat.le_refl _, fun _ => rfl, fun m => rfl⟩
  | cons op tr ih =>
    have hstep : runLog (st, ag) (op :: tr) =
        runLog (logStep (st, ag) op) tr := rfl
    cases op with
    | append m =>
      obtain ⟨ih1, ih2, _, ih4, _, _⟩ :=
        ih (add_message st m) ag
      have hc : countAppends (LogOp.append m :: tr) = countAppends tr + 1 := by
        simp [countAppends, List.countP_cons]
      refine ⟨?_, ?_, ?_, ?_, ?_, fun m2 => rfl⟩
      · rw [hstep]
        show (runLog (add_message st m, ag) tr).1.message_version = _
        rw [ih1, hc]
        simp only [add_message]
        omega
      · rw [hstep]
        show (runLog (add_message st m, ag) tr).1.messages.length = _
        rw [ih2, hc]
        simp only [add_message, List.length_append, List.length_cons,
          List.length_nil]
        omega
      · intro hinit
        rw [hstep]
        show (runLog (add_message st m, ag) tr).1.message_version =
          (runLog (add_message st m, ag) tr).1.messages.length
        rw [ih1, ih2]
        simp only [add_message, List.length_append, List.length_cons,
          List.length_nil]
        omega
      · rw [hstep]
        exact ih4
      · intro h0
        rw [hc] at h0
        omega
    | workerWait =>
      obtain ⟨ih1, ih2, ih3, ih4, ih5, _⟩ :=
        ih (logStep (st, ag) LogOp.workerWait).1 (logStep (st, ag) LogOp.workerWait).2
      have hid : (logStep (st, ag) LogOp.workerWait).1 = st := by
        unfold logStep
        by_cases h : ¬st.ended = true ∧
            st.message_version > ag.last_seen_message_version
        · rw [if_pos h]
        · rw [if_neg h]
      have hc : countAppends (LogOp.workerWait :: tr) = countAppends tr := by
        simp [countAppends, List.countP_cons]
      rw [hid] at ih1 ih2 ih3 ih5
      refine ⟨?_, ?_, ?_, ?_, ?_, fun m2 => rfl⟩
      · rw [hstep, hc]
        have : runLog (logStep (st, ag) LogOp.workerWait) tr =
            runLog ((logStep (st, ag) LogOp.workerWait).1,
              (logStep (st, ag) LogOp.workerWait).2) tr := rfl
        rw [this, hid]
        exact ih1
      · rw [hstep, hc]
        have : runLog (logStep (st, ag) LogOp.workerWait) tr =
            runLog ((logStep (st, ag) LogOp.workerWait).1,
              (logStep (st, ag) LogOp.workerWait).2) tr := rfl
        rw [this, hid]
        exact ih2
      · intro hinit
        rw [hstep]
        have : runLog (logStep (st, ag) LogOp.workerWait) tr =
            runLog ((logStep (st, ag) LogOp.workerWait).1,
              (logStep (st, ag) LogOp.workerWait).2) tr := rfl
        rw [this, hid]
        exact ih3 hinit
      · rw [hstep]
        have : runLog (logStep (st, ag) LogOp.workerWait) tr =
            runLog ((logStep (st, ag) LogOp.workerWait).1,
              (logStep (st, ag) LogOp.workerWait).2) tr := rfl
        rw [this]
        exact Nat.le_trans (logStep_observed_le (st, ag) LogOp.workerWait) ih4
      · intro h0
        rw [hc] at h0
        rw [hstep]
        have : runLog (logStep (st, ag) LogOp.workerWait) tr =
            runLog ((logStep (st, ag) LogOp.workerWait).1,
              (logStep (st, ag) LogOp.workerWait).2) tr := rfl
        rw [this, hid]
        exact ih5 h0

/-- Closed instance of `C9_log_version` on a two-step trace. -/
theorem C9_log_version_witness :
    (runLog (initOrchState, {})
        [LogOp.append (genMessage "Ann".toList), LogOp.workerWait]).1.message_version =
      initOrchState.message_version +
        countAppends [LogOp.append (genMessage "Ann".toList), LogOp.workerWait] ∧
    (initOrchState.message_version = initOrchState.messages.length →
      (runLog (initOrchState, {})
          [LogOp.append (genMessage "Ann".toList), LogOp.workerWait]).1.message_version =
        (runLog (initOrchState, {})
          [LogOp.append (genMessage "Ann".toList), LogOp.workerWait]).1.messages.length) :=
  ⟨(C9_log_version initOrchState {}
      [LogOp.append (genMessage "Ann".toList), LogOp.workerWait]).1,
    (C9_log_version initOrchState {}
      [LogOp.append (genMessage "Ann".toList), LogOp.workerWait]).2.2.1⟩

theorem approve_speech_cooldown_ok (cfg : SessionConfig) (st : OrchState)
    (ag : AgentState) (d : AgentDecision) (now : Rat)
    (h : (approve_speech cfg st ag d now).1 = true) :
    cfg.agent_cooldown_seconds ≤ now - ag.last_spoke_at := by
  by_contra hlt
  rw [not_le] at hlt
  unfold approve_speech at h
  rw [if_pos hlt] at h
  exact Bool.false_ne_true h

/-- Inductive core for C5: if every cycle's generation returns at or
after its decision time (none are cancelled), the recorded approval times
stay cooldown-spaced. -/
theorem runCycles_chain (cfg : SessionConfig) (cs : List WorkerCycle)
    (st : OrchState) (ag : AgentState) (approvals : List Rat)
    (hc : ∀ c ∈ cs, ∃ t, c.genReturns = some t ∧ c.decide_time ≤ t)
    (hch : List.Chain'
      (fun a b => cfg.agent_cooldown_seconds ≤ b - a) approvals)
    (hlast : ∀ a ∈ approvals.getLast?, a ≤ ag.last_spoke_at) :
    List.Chain' (fun a b => cfg.agent_cooldown_seconds ≤ b - a)
      (runCycles cfg (st, ag, approvals) cs).2.2 := by
  induction cs generalizing st ag approvals with
  | nil => exact hch
  | cons c cs ih =>
    obtain ⟨t, hgen, hle⟩ := hc c (List.mem_cons_self _ _)
    have hcs : ∀ c2 ∈ cs, ∃ t2, c2.genReturns = some t2 ∧ c2.decide_time ≤ t2 :=
      fun c2 hm => hc c2 (List.mem_cons_of_mem _ hm)
    have hsplit : runCycles cfg (st, ag, approvals) (c :: cs) =
        runCycles cfg ((runCycle cfg (st, ag, approvals) c).1,
          (runCycle cfg (st, ag, approvals) c).2.1,
          (runCycle cfg (st, ag, approvals) c).2.2) cs := rfl
    rw [hsplit]
    by_cases happ : (approve_speech cfg st ag c.decision c.decide_time).1 = true
    · have hcool := approve_speech_cooldown_ok _ _ _ _ _ happ
      have h21 : (runCycle cfg (st, ag, approvals) c).2.1 =
          { ag with last_spoke_at := t } := by
        unfold runCycle
        simp [happ, hgen]
      have h22 : (runCycle cfg (st, ag, approvals) c).2.2 =
          approvals ++ [c.decide_time] := by
        unfold runCycle
        simp [happ, hgen]
      rw [h21, h22]
      apply ih _ _ _ hcs
      · rw [List.chain'_append]
        refine ⟨hch, List.chain'_singleton _, ?_⟩
        intro a ha b hb
        rw [List.head?_cons, Option.mem_some_iff] at hb
        subst hb
        have ha' := hlast a ha
        calc cfg.agent_cooldown_seconds
            ≤ c.decide_time - ag.last_spoke_at := hcool
          _ ≤ c.decide_time - a := sub_le_sub_left ha' _
      · intro a ha
        rw [List.getLast?_concat, Option.mem_some_iff] at ha
        subst ha
        exact hle
    · have hred : runCycle cfg (st, ag, approvals) c = (st, ag, approvals) := by
        unfold runCycle
        simp [happ]
      rw [hred]
      exact ih _ _ _ hcs hch hlast

/-- C5 (amended): provided every approved generation runs to a normal
return (success, or swallowed error) at or after its approval time —
i.e. none is cancelled before updating the agent's last-spoken time —
consecutive pacing approvals for the same agent are at least
`agentCooldown` seconds apart. -/
theorem C5_cooldown_spacing (cfg : SessionConfig) (st : OrchState)
    (ag : AgentState) (cs : List WorkerCycle)
    (hc : ∀ c ∈ cs, ∃ t, c.genReturns = some t ∧ c.decide_time ≤ t) :
    List.Chain' (fun a b => cfg.agent_cooldown_seconds ≤ b - a)
      (runCycles cfg (st, ag, []) cs).2.2 :=
  runCycles_chain cfg cs st ag [] hc List.chain'_nil (by simp)

/-- Closed instance of `C5_cooldown_spacing`: two completed generations
11 seconds apart under a 10-second cooldown. -/
theorem C5_cooldown_spacing_witness :
    List.Chain'
      (fun a b =>
        SessionConfig.agent_cooldown_seconds ⟨10, 0, 0, 0, 0⟩ ≤ b - a)
      (runCycles ⟨10, 0, 0, 0, 0⟩ (initOrchState, {}, [])
        [⟨100, { action := AgentAction.comment }, some 100⟩,
         ⟨111, { action := AgentAction.comment }, some 111⟩]).2.2 :=
  C5_cooldown_spacing ⟨10, 0, 0, 0, 0⟩ initOrchState {}
    [⟨100, { action := AgentAction.comment }, some 100⟩,
     ⟨111, { action := AgentAction.comment }, some 111⟩]
    (by
      intro c hcm
      simp only [List.mem_cons, List.not_mem_nil, or_false] at hcm
      rcases hcm with rfl | rfl
      · exact ⟨100, rfl, le_refl _⟩
      · exact ⟨111, rfl, le_refl _⟩)

/-- C5 counterexample: cooldown 10 s; the agent is approved at t = 100,
its generation is cancelled (so `last_spoke_at` is never updated), and it
is approved again at t = 101 — two approvals 1 s apart. -/
theorem C5_counterexample :
    (runCycles ⟨10, 0, 0, 0, 0⟩ (initOrchState, {}, [])
      [⟨100, { action := AgentAction.comment }, none⟩,
       ⟨101, { action := AgentAction.comment }, none⟩]).2.2 = [100, 101] ∧
    (101 : Rat) - 100 < 10 := by
  constructor
  · norm_num [runCycles, runCycle, approve_speech, initOrchState,
      normalizeKeyPoints, pyStrip, pyLstrip, pyRstrip, toLowerStr]
  · norm_num

/-- Closed instance of `C10_empty_key_points` at a concrete fresh
session. -/
theorem C10_empty_key_points_witness :
    (approve_speech ⟨0, 0, 0, 0, 0⟩ initOrchState {}
        { action := AgentAction.comment } 1).2.recent_key_points =
      initOrchState.recent_key_points ∧
    ((approve_speech ⟨0, 0, 0, 0, 0⟩ initOrchState {}
        { action := AgentAction.comment } 1).1 = false →
      (1 : Rat) - AgentState.last_spoke_at {} <
        SessionConfig.agent_cooldown_seconds ⟨0, 0, 0, 0, 0⟩ ∨
      (SessionConfig.global_speak_interval_seconds ⟨0, 0, 0, 0, 0⟩ > 0 ∧
        (1 : Rat) - initOrchState.last_global_speak_at <
          SessionConfig.global_speak_interval_seconds ⟨0, 0, 0, 0, 0⟩) ∨
      (SessionConfig.max_total_ai_messages ⟨0, 0, 0, 0, 0⟩ > 0 ∧
        (initOrchState.total_ai_messages : Int) ≥
          SessionConfig.max_total_ai_messages ⟨0, 0, 0, 0, 0⟩)) :=
  C10_empty_key_points ⟨0, 0, 0, 0, 0⟩ initOrchState {}
    { action := AgentAction.comment } 1 (by decide)

end Brainstorm
